import Mathlib

/-!
Formal model of the multi-instance Paxos peer in `paxos.go`.

Every definition below is a direct translation of the corresponding Go
function.  The value payload (`interface{}` in Go) is an abstract type
parameter `V`; a Go `nil` value is `none : Option V`.  The instance map
`map[int]*instance` is an association list with first-match lookup, and
Go round-number strings are compared with an explicit byte-lexicographic
comparator (`goStrLt`), which coincides with Go string order on the ASCII
strings `generatePNum` produces.  Real time is not modelled: the
nanosecond duration read by `generatePNum` is passed in as an argument.
-/

namespace PaxosImpl

/-- Go constant `OK = "OK"`. -/
def OK : String := "OK"

/-- Go constant `Reject = "Reject"`. -/
def Reject : String := "Reject"

/-- Go `type Fate int` with the three constants `Decided`, `Pending`,
`Forgotten` (the numeric values 1,2,3 play no role). -/
inductive Fate where
  | Decided
  | Pending
  | Forgotten
deriving DecidableEq

/-- Go `type instance struct { state Fate; n_p string; n_a string; v_a interface{} }`. -/
structure Instance (V : Type) where
  state : Fate
  n_p : String
  n_a : String
  v_a : Option V
deriving DecidableEq

/-- Go `newInstance()`: `&instance{n_a: "", n_p: "", v_a: nil, state: Pending}`. -/
def newInstance {V : Type} : Instance V :=
  { state := Fate.Pending, n_p := "", n_a := "", v_a := none }

/-- The instance store `map[int]*instance`, as an association list. -/
def Store (V : Type) := List (Int × Instance V)

instance {V : Type} [DecidableEq V] : DecidableEq (Store V) :=
  inferInstanceAs (DecidableEq (List (Int × Instance V)))

/-- Map read `px.instances[seq]` (first matching key). -/
def lookup {V : Type} : Store V → Int → Option (Instance V)
  | [], _ => none
  | p :: rest, k => if p.1 = k then some p.2 else lookup rest k

/-- Map write `px.instances[seq] = inst`: replace the entry for the key,
or add one if the key is absent. -/
def setInst {V : Type} : Store V → Int → Instance V → Store V
  | [], k, inst => [(k, inst)]
  | p :: rest, k, inst => if p.1 = k then (k, inst) :: rest else p :: setInst rest k inst

/-- The keys of the store. -/
def keys {V : Type} (s : Store V) : List Int := s.map Prod.fst

/-- Byte-lexicographic strict order on char lists: Go's `<` on strings,
restricted to ASCII content (Go compares UTF-8 bytes, which agrees with
codepoint order on ASCII). -/
def strLtAux : List Char → List Char → Bool
  | [], [] => false
  | [], _ :: _ => true
  | _ :: _, [] => false
  | a :: as, b :: bs =>
      if a.val < b.val then true
      else if b.val < a.val then false
      else strLtAux as bs

/-- Go `a < b` on strings. -/
def goStrLt (a b : String) : Bool := strLtAux a.data b.data

/-- Go `a >= b` on strings, i.e. `!(a < b)`. -/
def goStrGe (a b : String) : Bool := !(goStrLt a b)

/-- Go `generatePNum`: decimal nanoseconds since the fixed epoch,
a dash, and the peer index — with no zero padding and no counter.
The clock reading is the `durationNs` argument. -/
def generatePNum (durationNs : Int) (me : Nat) : String :=
  toString durationNs ++ "-" ++ toString me

/-- Go `majority()`: `len(px.peers)/2 + 1`, as a function of the peer count. -/
def majority (numPeers : Nat) : Nat := numPeers / 2 + 1

/-- The mutable local state of one peer: the fields of the Go `Paxos`
struct that the protocol handlers read or write (`me`, `dones`,
`instances`); the transport fields are out of scope. -/
structure Paxos (V : Type) where
  me : Nat
  dones : List Int
  instances : Store V
deriving DecidableEq

/-- The instance the handler works on after the create-if-absent step:
`px.instances[seq]` when present, a fresh `newInstance()` otherwise. -/
def currentOrFresh {V : Type} (px : Paxos V) (seq : Int) : Instance V :=
  (lookup px.instances seq).getD newInstance

/-- Reply struct of `Prepare`. -/
structure PrepareReply (V : Type) where
  err : String
  acceptPnum : String
  acceptValue : Option V
deriving DecidableEq

/-- Go `Prepare(args, reply)`: create the instance if absent; if
`args.PNum >= n_p` (Go string order) reply OK and set `n_p := args.PNum`,
else reply Reject; in both cases the reply carries the instance's
`n_a` and `v_a` (which `Prepare` never writes). -/
def Prepare {V : Type} (px : Paxos V) (seq : Int) (pnum : String) :
    Paxos V × PrepareReply V :=
  let inst0 := currentOrFresh px seq
  if goStrGe pnum inst0.n_p then
    ({ px with instances := setInst px.instances seq { inst0 with n_p := pnum } },
     { err := OK, acceptPnum := inst0.n_a, acceptValue := inst0.v_a })
  else
    ({ px with instances := setInst px.instances seq inst0 },
     { err := Reject, acceptPnum := inst0.n_a, acceptValue := inst0.v_a })

/-- Go `Accept(args, reply)`: if the instance is absent reply Reject and
leave the store alone; otherwise if `args.PNum >= n_p` set `n_p`, `n_a`
to `args.PNum` and `v_a` to `args.Value` and reply OK, else Reject.
The reply struct holds only `Err`, returned here as the `String`. -/
def Accept {V : Type} (px : Paxos V) (seq : Int) (pnum : String) (v : Option V) :
    Paxos V × String :=
  match lookup px.instances seq with
  | none => (px, Reject)
  | some inst =>
      if goStrGe pnum inst.n_p then
        ({ px with instances :=
            setInst px.instances seq { inst with n_p := pnum, n_a := pnum, v_a := v } },
         OK)
      else
        (px, Reject)

/-- The instance contents `Decide` installs: every field of the (created
or existing) instance is overwritten. -/
def decidedInstance {V : Type} (v : Option V) (pnum : String) : Instance V :=
  { state := Fate.Decided, n_p := pnum, n_a := pnum, v_a := v }

/-- Go `Decide(args, reply)`: create the instance if absent, then assign
`v_a := args.Value`, `n_a := args.PNum`, `n_p := args.PNum`,
`state := Decided` (so the stored instance is `decidedInstance` whether
or not an entry existed), and assign `dones[args.Me] := args.Done`
(a plain store, not a max). -/
def Decide {V : Type} (px : Paxos V) (seq : Int) (v : Option V) (pnum : String)
    (sender : Nat) (done : Int) : Paxos V :=
  { px with
    instances := setInst px.instances seq (decidedInstance v pnum),
    dones := px.dones.set sender done }

/-- The fold `min := dones[me]; for _, i := range dones { if i < min ... }`. -/
def listMin (l : List Int) (init : Int) : Int :=
  l.foldl (fun acc i => if i < acc then i else acc) init

/-- The minimum `Min()` computes: the fold above seeded with
`px.dones[px.me]` (the Go read panics out of range; the default `0`
below is never reached when `px.me` is in range). -/
def doneMin {V : Type} (px : Paxos V) : Int :=
  listMin px.dones (px.dones.getD px.me 0)

/-- Go `Min()`: compute the minimum of `dones`, delete every instance
with `seq <= min` whose state is Decided, return `min + 1`. -/
def Min {V : Type} (px : Paxos V) : Paxos V × Int :=
  let m := doneMin px
  ({ px with instances :=
      px.instances.filter fun p => !(decide (p.1 ≤ m) && decide (p.2.state = Fate.Decided)) },
   m + 1)

/-- Go `Max()`: fold `max := 0; for i := range instances { if i > max ... }`.
Note the initial value 0, not -1. -/
def Max {V : Type} (px : Paxos V) : Int :=
  px.instances.foldl (fun m p => if p.1 > m then p.1 else m) 0

/-- Go `Status(seq)`: call `Min()` (whose garbage collection persists in
the peer), return Forgotten below the horizon, Pending for an absent
instance, and the stored state and value otherwise. -/
def Status {V : Type} (px : Paxos V) (seq : Int) : Paxos V × (Fate × Option V) :=
  let r := Min px
  if seq < r.2 then (r.1, (Fate.Forgotten, none))
  else
    match lookup r.1.instances seq with
    | none => (r.1, (Fate.Pending, none))
    | some inst => (r.1, (inst.state, inst.v_a))

/-! ### Lemmas about the store, the fold-minimum and the string order -/

section StoreLemmas

variable {V : Type}

theorem lookup_setInst_self (s : Store V) (k : Int) (i : Instance V) :
    lookup (setInst s k i) k = some i := by
  induction s with
  | nil => simp [setInst, lookup]
  | cons p rest ih =>
      by_cases h : p.1 = k
      · simp [setInst, h, lookup]
      · simp [setInst, h, lookup, ih]

theorem lookup_setInst_ne (s : Store V) (k k' : Int) (i : Instance V) (h : k' ≠ k) :
    lookup (setInst s k i) k' = lookup s k' := by
  have h2 : ¬ (k = k') := fun hh => h hh.symm
  induction s with
  | nil => simp [setInst, lookup, h2]
  | cons p rest ih =>
      by_cases hp : p.1 = k
      · simp [setInst, hp, lookup, h2]
      · by_cases hq : p.1 = k'
        · simp [setInst, hp, lookup, hq, h2, h]
        · simp [setInst, hp, lookup, hq, h2, h, ih]

theorem lookup_eq_none_of_not_mem_keys (s : Store V) (k : Int) (h : k ∉ keys s) :
    lookup s k = none := by
  induction s with
  | nil => rfl
  | cons p rest ih =>
      simp only [keys, List.map_cons, List.mem_cons, not_or] at h
      have hp : ¬ (p.1 = k) := fun hh => h.1 hh.symm
      simpa [lookup, hp] using ih h.2

theorem lookup_filter_none (q : Int × Instance V → Bool) (s : Store V) (k : Int)
    (h : lookup s k = none) : lookup (s.filter q) k = none := by
  induction s with
  | nil => rfl
  | cons p rest ih =>
      by_cases hp : p.1 = k
      · simp [lookup, hp] at h
      · have hr : lookup rest k = none := by simpa [lookup, hp] using h
        by_cases hq : q p = true
        · simpa [List.filter_cons, hq, lookup, hp] using ih hr
        · simpa [List.filter_cons, hq] using ih hr

theorem lookup_filter_nodup (s : Store V) (hnd : (keys s).Nodup)
    (q : Int × Instance V → Bool) (k : Int) :
    lookup (s.filter q) k =
      (lookup s k).bind (fun i => if q (k, i) then some i else none) := by
  induction s with
  | nil => rfl
  | cons a rest ih =>
      obtain ⟨a1, a2⟩ := a
      simp only [keys, List.map_cons, List.nodup_cons] at hnd
      obtain ⟨ha, hnd'⟩ := hnd
      by_cases hk : a1 = k
      · subst hk
        have hrest : lookup rest a1 = none :=
          lookup_eq_none_of_not_mem_keys rest a1 ha
        by_cases hq : q (a1, a2) = true
        · simp [List.filter_cons, hq, lookup]
        · simp [List.filter_cons, hq, lookup, lookup_filter_none q rest a1 hrest]
      · have ih' := ih hnd'
        by_cases hq : q (a1, a2) = true
        · simpa [List.filter_cons, hq, lookup, hk] using ih'
        · simpa [List.filter_cons, hq, lookup, hk] using ih'

end StoreLemmas

theorem listMin_nil (a : Int) : listMin [] a = a := rfl

theorem listMin_cons (y : Int) (ys : List Int) (a : Int) :
    listMin (y :: ys) a = listMin ys (if y < a then y else a) := rfl

theorem listMin_le_init (l : List Int) : ∀ a : Int, listMin l a ≤ a := by
  induction l with
  | nil => intro a; simp [listMin_nil]
  | cons y ys ih =>
      intro a
      rw [listMin_cons]
      refine le_trans (ih _) ?_
      split <;> omega

theorem listMin_le_mem (l : List Int) (x : Int) (hx : x ∈ l) :
    ∀ a : Int, listMin l a ≤ x := by
  induction l with
  | nil => cases hx
  | cons y ys ih =>
      intro a
      rw [listMin_cons]
      rcases List.mem_cons.mp hx with h | h
      · subst h
        refine le_trans (listMin_le_init _ _) ?_
        split <;> omega
      · exact ih h _

theorem listMin_mem_or_init (l : List Int) : ∀ a : Int,
    listMin l a = a ∨ listMin l a ∈ l := by
  induction l with
  | nil => intro a; left; rfl
  | cons y ys ih =>
      intro a
      rw [listMin_cons]
      rcases ih (if y < a then y else a) with h | h
      · rw [h]
        split
        · right; exact List.mem_cons_self _ _
        · left; rfl
      · right; exact List.mem_cons_of_mem _ h

theorem strLtAux_irrefl (l : List Char) : strLtAux l l = false := by
  induction l with
  | nil => rfl
  | cons c cs ih => simp [strLtAux, ih]

theorem goStrGe_refl (a : String) : goStrGe a a = true := by
  simp [goStrGe, goStrLt, strLtAux_irrefl]

/-! ### Claim theorems -/

/-- Claim C3: for every `Prepare(seq, pnum)` call, a fresh instance is
created at `seq` when none exists; if `pnum >= n_p` under the code's
round-number (string) order the reply is OK and `n_p` is set to `pnum`,
otherwise the reply is Reject; and in both cases the reply carries the
instance's current `n_a` and `v_a`. -/
theorem C3_prepare_contract {V : Type} (px : Paxos V) (seq : Int) (pnum : String) :
    ((lookup (Prepare px seq pnum).1.instances seq).isSome = true) ∧
    (goStrGe pnum (currentOrFresh px seq).n_p = true →
      (Prepare px seq pnum).2.err = OK ∧
      lookup (Prepare px seq pnum).1.instances seq
        = some { currentOrFresh px seq with n_p := pnum }) ∧
    (goStrGe pnum (currentOrFresh px seq).n_p = false →
      (Prepare px seq pnum).2.err = Reject ∧
      lookup (Prepare px seq pnum).1.instances seq = some (currentOrFresh px seq)) ∧
    (Prepare px seq pnum).2.acceptPnum = (currentOrFresh px seq).n_a ∧
    (Prepare px seq pnum).2.acceptValue = (currentOrFresh px seq).v_a := by
  by_cases hc : goStrGe pnum (currentOrFresh px seq).n_p = true
  · simp [Prepare, hc, lookup_setInst_self]
  · simp only [Bool.not_eq_true] at hc
    simp [Prepare, hc, lookup_setInst_self]

/-- Witness for C3: on an empty peer, `Prepare(0, "5-0")` replies OK,
stores the promise, and reports the fresh instance's empty `n_a`, `v_a`. -/
theorem C3_witness :
    goStrGe "5-0" (currentOrFresh (⟨0, [-1], []⟩ : Paxos Nat) 0).n_p = true ∧
    ((Prepare (⟨0, [-1], []⟩ : Paxos Nat) 0 "5-0").2.err = OK ∧
      lookup (Prepare (⟨0, [-1], []⟩ : Paxos Nat) 0 "5-0").1.instances 0
        = some { currentOrFresh (⟨0, [-1], []⟩ : Paxos Nat) 0 with n_p := "5-0" }) :=
  ⟨by decide, (C3_prepare_contract (⟨0, [-1], []⟩ : Paxos Nat) 0 "5-0").2.1 (by decide)⟩

/-- Claim C4: for every `Accept(seq, pnum, v)` call: if no instance
exists at `seq` the reply is Reject and the whole peer state (hence the
store) is unchanged; otherwise if `pnum >= n_p` then `n_p`, `n_a` are set
to `pnum`, `v_a` to `v` and the reply is OK, else the reply is Reject
with the state unchanged; and the `state` field of the instance at `seq`
is never changed (in particular never set to Decided). -/
theorem C4_accept_contract {V : Type} (px : Paxos V) (seq : Int) (pnum : String)
    (v : Option V) :
    (lookup px.instances seq = none →
      (Accept px seq pnum v).2 = Reject ∧ (Accept px seq pnum v).1 = px) ∧
    (∀ inst, lookup px.instances seq = some inst →
      (goStrGe pnum inst.n_p = true →
        (Accept px seq pnum v).2 = OK ∧
        lookup (Accept px seq pnum v).1.instances seq
          = some { inst with n_p := pnum, n_a := pnum, v_a := v }) ∧
      (goStrGe pnum inst.n_p = false →
        (Accept px seq pnum v).2 = Reject ∧ (Accept px seq pnum v).1 = px)) ∧
    (∀ inst inst', lookup px.instances seq = some inst →
      lookup (Accept px seq pnum v).1.instances seq = some inst' →
      inst'.state = inst.state) := by
  refine ⟨?_, ?_, ?_⟩
  · intro hnone
    simp [Accept, hnone]
  · intro inst hsome
    constructor
    · intro hge
      simp [Accept, hsome, hge, lookup_setInst_self]
    · intro hlt
      simp [Accept, hsome, hlt]
  · intro inst inst' hsome hsome'
    by_cases hge : goStrGe pnum inst.n_p = true
    · simp only [Accept, hsome, hge, if_true] at hsome'
      rw [lookup_setInst_self] at hsome'
      cases hsome'
      rfl
    · simp only [Bool.not_eq_true] at hge
      simp only [Accept, hsome, hge, Bool.false_eq_true, if_false] at hsome'
      cases hsome'
      rfl

/-- Witness for C4: with no instance at seq 0, `Accept` rejects and
leaves the peer untouched; with an instance whose promise is below the
proposal, `Accept` replies OK and installs `pnum` and `v`. -/
theorem C4_witness :
    ((Accept (⟨0, [-1], []⟩ : Paxos Nat) 0 "5-0" (some 7)).2 = Reject ∧
      (Accept (⟨0, [-1], []⟩ : Paxos Nat) 0 "5-0" (some 7)).1 = (⟨0, [-1], []⟩ : Paxos Nat)) ∧
    ((Accept (⟨0, [-1], [(0, newInstance)]⟩ : Paxos Nat) 0 "5-0" (some 7)).2 = OK ∧
      lookup (Accept (⟨0, [-1], [(0, newInstance)]⟩ : Paxos Nat) 0 "5-0" (some 7)).1.instances 0
        = some { (newInstance : Instance Nat) with n_p := "5-0", n_a := "5-0", v_a := some 7 }) :=
  ⟨(C4_accept_contract (⟨0, [-1], []⟩ : Paxos Nat) 0 "5-0" (some 7)).1 (by decide),
   ((C4_accept_contract (⟨0, [-1], [(0, newInstance)]⟩ : Paxos Nat) 0 "5-0" (some 7)).2.1
      newInstance (by decide)).1 (by decide)⟩

/-- Claim C9: `Prepare(seq, pnum)` changes at most the instance at `seq`
(creating it if absent and possibly raising its `n_p`), never changes
`n_a`, `v_a` or `state` of that instance, never changes any other key's
instance, and never changes the done vector (or the peer index). -/
theorem C9_prepare_frame {V : Type} (px : Paxos V) (seq : Int) (pnum : String) :
    (Prepare px seq pnum).1.dones = px.dones ∧
    (Prepare px seq pnum).1.me = px.me ∧
    (∀ k, k ≠ seq → lookup (Prepare px seq pnum).1.instances k = lookup px.instances k) ∧
    (∃ inst', lookup (Prepare px seq pnum).1.instances seq = some inst' ∧
      inst'.n_a = (currentOrFresh px seq).n_a ∧
      inst'.v_a = (currentOrFresh px seq).v_a ∧
      inst'.state = (currentOrFresh px seq).state ∧
      goStrLt inst'.n_p (currentOrFresh px seq).n_p = false) := by
  by_cases hc : goStrGe pnum (currentOrFresh px seq).n_p = true
  · refine ⟨by simp [Prepare, hc], by simp [Prepare, hc], ?_, ?_⟩
    · intro k hk
      simp only [Prepare, hc, if_true]
      exact lookup_setInst_ne _ _ _ _ hk
    · refine ⟨{ currentOrFresh px seq with n_p := pnum }, ?_, rfl, rfl, rfl, ?_⟩
      · simp [Prepare, hc, lookup_setInst_self]
      · simpa [goStrGe] using hc
  · have hc' : goStrGe pnum (currentOrFresh px seq).n_p = false := by
      simpa using hc
    refine ⟨by simp [Prepare, hc'], by simp [Prepare, hc'], ?_, ?_⟩
    · intro k hk
      simp only [Prepare, hc', Bool.false_eq_true, if_false]
      exact lookup_setInst_ne _ _ _ _ hk
    · refine ⟨currentOrFresh px seq, ?_, rfl, rfl, rfl, ?_⟩
      · simp [Prepare, hc', lookup_setInst_self]
      · simpa [goStrGe, goStrLt] using strLtAux_irrefl (currentOrFresh px seq).n_p.data

/-- Witness for C9: a `Prepare` at seq 0 leaves the instance at key 1
exactly as it was, and leaves the done vector unchanged. -/
theorem C9_witness :
    lookup (Prepare (⟨0, [3, 4], [(1, newInstance)]⟩ : Paxos Nat) 0 "5-0").1.instances 1
      = lookup (⟨0, [3, 4], [(1, newInstance)]⟩ : Paxos Nat).instances 1 ∧
    (Prepare (⟨0, [3, 4], [(1, newInstance)]⟩ : Paxos Nat) 0 "5-0").1.dones = [3, 4] :=
  ⟨(C9_prepare_frame (⟨0, [3, 4], [(1, newInstance)]⟩ : Paxos Nat) 0 "5-0").2.2.1 1 (by decide),
   (C9_prepare_frame (⟨0, [3, 4], [(1, newInstance)]⟩ : Paxos Nat) 0 "5-0").1⟩

/-- Claim C10: after every `Decide(seq, v, pnum, sender, done)` call the
store contains an entry at `seq` with `state = Decided`,
`n_p = n_a = pnum` and `v_a = v`; since this holds for every starting
state it holds in particular for a state from which `Min()` has already
garbage-collected `seq`, so a duplicated or late Decide re-creates the
entry. -/
theorem C10_decide_postcondition {V : Type} (px : Paxos V) (seq : Int) (v : Option V)
    (pnum : String) (sender : Nat) (done : Int) :
    (∃ inst, lookup (Decide px seq v pnum sender done).instances seq = some inst ∧
      inst.state = Fate.Decided ∧ inst.n_p = pnum ∧ inst.n_a = pnum ∧ inst.v_a = v) ∧
    (∃ inst, lookup (Decide (Min px).1 seq v pnum sender done).instances seq = some inst ∧
      inst.state = Fate.Decided ∧ inst.n_p = pnum ∧ inst.n_a = pnum ∧ inst.v_a = v) := by
  constructor
  · exact ⟨decidedInstance v pnum, by simp [Decide, lookup_setInst_self], rfl, rfl, rfl, rfl⟩
  · exact ⟨decidedInstance v pnum, by simp [Decide, lookup_setInst_self], rfl, rfl, rfl, rfl⟩

/-- Counterexample to claim C2: the Decide handler stores the received
done value directly — `dones[sender] := senderDone`, with no max — so a
Decide carrying a smaller value lowers the slot.  Starting from
`dones = [5, -1]`, a Decide from sender 0 with done = 3 leaves
`dones[0] = 3`, which is below the previous 5 and differs from
`max 5 3`. -/
theorem C2_counterexample :
    (Decide (⟨0, [5, -1], []⟩ : Paxos Nat) 0 (some 1) "1-0" 0 3).dones = [3, -1] ∧
    (3 : Int) < 5 ∧ (3 : Int) ≠ max 5 3 := by decide

/-- Claim C2 (amended): the Decide handler sets
`dones[sender] := senderDone` unconditionally, so after the call the
slot equals the received value exactly (and every other slot is
unchanged); the slot is therefore the last received value, not a
monotonically non-decreasing maximum. -/
theorem C2_decide_overwrites_done {V : Type} (px : Paxos V) (seq : Int) (v : Option V)
    (pnum : String) (sender : Nat) (done : Int) (h : sender < px.dones.length) :
    (Decide px seq v pnum sender done).dones[sender]? = some done ∧
    ∀ j, j ≠ sender → (Decide px seq v pnum sender done).dones[j]? = px.dones[j]? := by
  constructor
  · show (px.dones.set sender done)[sender]? = some done
    exact List.getElem?_set_eq_of_lt done h
  · intro j hj
    show (px.dones.set sender done)[j]? = px.dones[j]?
    exact List.getElem?_set_ne (Ne.symm hj)

/-- Witness for the amended C2: a Decide from sender 0 with done = 3
rewrites slot 0 to 3 and leaves slot 1 alone. -/
theorem C2_witness :
    (Decide (⟨0, [5, -1], []⟩ : Paxos Nat) 0 (some 1) "1-0" 0 3).dones[0]? = some 3 ∧
    (Decide (⟨0, [5, -1], []⟩ : Paxos Nat) 0 (some 1) "1-0" 0 3).dones[1]?
      = (⟨0, [5, -1], []⟩ : Paxos Nat).dones[1]? :=
  ⟨(C2_decide_overwrites_done (⟨0, [5, -1], []⟩ : Paxos Nat) 0 (some 1) "1-0" 0 3
      (by decide)).1,
   (C2_decide_overwrites_done (⟨0, [5, -1], []⟩ : Paxos Nat) 0 (some 1) "1-0" 0 3
      (by decide)).2 1 (by decide)⟩

/-- Claim C5: `Min()` computes `m` as the minimum over all slots of the
done vector, deletes exactly the Decided instances with `seq ≤ m` (and
nothing else), and returns `m + 1`.  The peer index must be a valid slot
(the Go read `dones[me]` panics otherwise) and the store's keys are
distinct (a Go map invariant). -/
theorem C5_min_contract {V : Type} (px : Paxos V)
    (hme : px.me < px.dones.length) (hnd : (keys px.instances).Nodup) :
    (Min px).2 = doneMin px + 1 ∧
    doneMin px ∈ px.dones ∧
    (∀ x ∈ px.dones, doneMin px ≤ x) ∧
    (Min px).1.dones = px.dones ∧
    (Min px).1.me = px.me ∧
    (∀ k i, lookup px.instances k = some i →
      lookup (Min px).1.instances k
        = if k ≤ doneMin px ∧ i.state = Fate.Decided then none else some i) ∧
    (∀ k, lookup px.instances k = none → lookup (Min px).1.instances k = none) := by
  have hinit : px.dones.getD px.me 0 ∈ px.dones := by
    rw [List.getD_eq_getElem?_getD, List.getElem?_eq_getElem hme]
    exact List.getElem_mem hme
  refine ⟨rfl, ?_, ?_, rfl, rfl, ?_, ?_⟩
  · rcases listMin_mem_or_init px.dones (px.dones.getD px.me 0) with h | h
    · rw [doneMin, h]; exact hinit
    · exact h
  · intro x hx
    exact listMin_le_mem px.dones x hx _
  · intro k i hsome
    rw [show (Min px).1.instances
        = px.instances.filter
            (fun p => !(decide (p.1 ≤ doneMin px) && decide (p.2.state = Fate.Decided)))
      from rfl]
    rw [lookup_filter_nodup px.instances hnd _ k, hsome]
    by_cases h1 : k ≤ doneMin px <;> by_cases h2 : i.state = Fate.Decided <;>
      simp [h1, h2]
  · intro k hnone
    exact lookup_filter_none _ px.instances k hnone

/-- Witness for C5: with dones = [2, 5] the minimum is 2, the call
returns 3, the Decided instance at seq 0 is deleted and the Pending
instance at seq 3 survives. -/
theorem C5_witness :
    (Min (⟨0, [2, 5], [(0, decidedInstance (some 9) "p"), (3, newInstance)]⟩ : Paxos Nat)).2
      = 3 ∧
    lookup (Min (⟨0, [2, 5],
        [(0, decidedInstance (some 9) "p"), (3, newInstance)]⟩ : Paxos Nat)).1.instances 0
      = none ∧
    lookup (Min (⟨0, [2, 5],
        [(0, decidedInstance (some 9) "p"), (3, newInstance)]⟩ : Paxos Nat)).1.instances 3
      = some newInstance := by
  have h := C5_min_contract
    (⟨0, [2, 5], [(0, decidedInstance (some 9) "p"), (3, newInstance)]⟩ : Paxos Nat)
    (by decide) (by decide)
  refine ⟨?_, ?_, ?_⟩
  · rw [h.1]; decide
  · rw [h.2.2.2.2.2.1 0 (decidedInstance (some 9) "p") (by decide)]; decide
  · rw [h.2.2.2.2.2.1 3 newInstance (by decide)]; decide

/-- Claim C6 concerns a code bug: the file's own API comment promises
`px.Max() int -- highest instance seq known, or -1`, but the fold in
`Max()` starts at 0, so the empty instance store yields 0, not −1. -/
theorem C6_max_empty_returns_zero :
    Max (⟨0, [-1], []⟩ : Paxos Nat) = 0 ∧ Max (⟨0, [-1], []⟩ : Paxos Nat) ≠ -1 := by
  decide

/-- Counterexample to claim C7: `Min()` is not read-only on the instance
store — it garbage-collects.  With dones = [0, 0] and a Decided instance
at seq 0, calling `Min()` deletes the entry. -/
theorem C7_counterexample :
    lookup (Min (⟨0, [0, 0], [(0, decidedInstance (some 7) "p")]⟩ : Paxos Nat)).1.instances 0
      = none ∧
    lookup (⟨0, [0, 0], [(0, decidedInstance (some 7) "p")]⟩ : Paxos Nat).instances 0
      = some (decidedInstance (some 7) "p") := by decide

/-- The state `Status` leaves behind is exactly the state `Min` leaves
behind (every branch of `Status` returns `Min`'s peer state). -/
theorem Status_fst {V : Type} (px : Paxos V) (seq : Int) :
    (Status px seq).1 = (Min px).1 := by
  cases h : lookup (Min px).1.instances seq with
  | none => by_cases h2 : seq < (Min px).2 <;> simp [Status, h, h2]
  | some i => by_cases h2 : seq < (Min px).2 <;> simp [Status, h, h2]

/-- Claim C7 (amended): none of Status, Max, Min changes the done vector
or the peer index — Max is read-only outright (it is a pure function of
the state) — but Min, and Status which runs Min's garbage collection,
may change the instance store, and only by deleting entries: afterwards
every key holds either its previous instance or nothing. -/
theorem C7_reads_except_gc {V : Type} (px : Paxos V) (seq : Int)
    (hnd : (keys px.instances).Nodup) :
    (Min px).1.dones = px.dones ∧ (Min px).1.me = px.me ∧
    (Status px seq).1.dones = px.dones ∧ (Status px seq).1.me = px.me ∧
    (∀ k, lookup (Min px).1.instances k = lookup px.instances k ∨
      lookup (Min px).1.instances k = none) ∧
    (∀ k, lookup (Status px seq).1.instances k = lookup px.instances k ∨
      lookup (Status px seq).1.instances k = none) := by
  have hdel : ∀ k, lookup (Min px).1.instances k = lookup px.instances k ∨
      lookup (Min px).1.instances k = none := by
    intro k
    cases hsome : lookup px.instances k with
    | none => exact Or.inr (lookup_filter_none _ px.instances k hsome)
    | some i =>
        rw [show (Min px).1.instances
            = px.instances.filter
                (fun p => !(decide (p.1 ≤ doneMin px) && decide (p.2.state = Fate.Decided)))
          from rfl]
        rw [lookup_filter_nodup px.instances hnd _ k, hsome]
        by_cases h1 : k ≤ doneMin px <;> by_cases h2 : i.state = Fate.Decided <;>
          simp [h1, h2, hsome]
  refine ⟨rfl, rfl, ?_, ?_, hdel, ?_⟩
  · rw [Status_fst]; rfl
  · rw [Status_fst]; rfl
  · intro k
    rw [Status_fst]
    exact hdel k

/-- Witness for the amended C7: on a peer holding one Decided instance
at seq 0 with dones = [0, 0], the done vector survives both Min and
Status, and the stored key either keeps its value or is gone. -/
theorem C7_witness :
    (Min (⟨0, [0, 0], [(0, decidedInstance (some 7) "p")]⟩ : Paxos Nat)).1.dones = [0, 0] ∧
    (Status (⟨0, [0, 0], [(0, decidedInstance (some 7) "p")]⟩ : Paxos Nat) 5).1.dones
      = [0, 0] ∧
    (lookup (Min (⟨0, [0, 0],
        [(0, decidedInstance (some 7) "p")]⟩ : Paxos Nat)).1.instances 0
      = lookup (⟨0, [0, 0], [(0, decidedInstance (some 7) "p")]⟩ : Paxos Nat).instances 0 ∨
     lookup (Min (⟨0, [0, 0],
        [(0, decidedInstance (some 7) "p")]⟩ : Paxos Nat)).1.instances 0 = none) := by
  have h := C7_reads_except_gc
    (⟨0, [0, 0], [(0, decidedInstance (some 7) "p")]⟩ : Paxos Nat) 5 (by decide)
  exact ⟨h.1, h.2.2.1, h.2.2.2.2.1 0⟩

/-- Claim C8 concerns a code bug: `generatePNum` concatenates the
unpadded decimal timestamp, a dash and the peer index, so Go string
order disagrees with time order whenever the decimal timestamps differ
in length: for timestamps 9 < 10 on peer 0 the generated strings are
"9-0" and "10-0" and compare the wrong way around.  (And with no
per-peer counter, two calls in the same clock tick return the identical
string rather than distinct increasing ones.) -/
theorem C8_pnum_order_violated :
    generatePNum 9 0 = "9-0" ∧
    generatePNum 10 0 = "10-0" ∧
    goStrLt (generatePNum 9 0) (generatePNum 10 0) = false ∧
    goStrLt (generatePNum 10 0) (generatePNum 9 0) = true := by decide

/-! ### An execution on which two peers decide different values

Two proposer tasks A and B run on peer 0 for seq 0 in a 3-peer cluster.
`generatePNum` carries no per-peer counter, so two calls that fall in
the same clock tick return the same string: both tasks use the round
number below.  A proposes value 10, B proposes value 20.  Every handler
application below is one message delivery of the code's propose loop;
the messages said to be lost are `call` failures the loop tolerates
whenever it still counts a majority. -/

/-- The round number both proposer tasks on peer 0 draw in the same
clock tick (1000 ns after the epoch). -/
def c1pnum : String := generatePNum 1000 0

/-- Initial state of peer `i` after `Make` in a 3-peer cluster:
`dones` all −1, empty instance store. -/
def c1init (i : Nat) : Paxos Nat :=
  { me := i, dones := [-1, -1, -1], instances := [] }

/-- Peer 0 receives: Prepare from A, Prepare from B, Accept from A
(value 10), Decide from A.  B's Accept and Decide to peer 0 are lost. -/
def c1p0PrepA : Paxos Nat × PrepareReply Nat := Prepare (c1init 0) 0 c1pnum

def c1p0PrepB : Paxos Nat × PrepareReply Nat := Prepare c1p0PrepA.1 0 c1pnum

def c1p0AccA : Paxos Nat × String := Accept c1p0PrepB.1 0 c1pnum (some 10)

def c1peer0 : Paxos Nat := Decide c1p0AccA.1 0 (some 10) c1pnum 0 (-1)

/-- Peer 1 receives: Prepare from A, Prepare from B, Accept from A
(value 10), then Accept from B (value 20).  Both Decides are lost. -/
def c1p1PrepA : Paxos Nat × PrepareReply Nat := Prepare (c1init 1) 0 c1pnum

def c1p1PrepB : Paxos Nat × PrepareReply Nat := Prepare c1p1PrepA.1 0 c1pnum

def c1p1AccA : Paxos Nat × String := Accept c1p1PrepB.1 0 c1pnum (some 10)

def c1p1AccB : Paxos Nat × String := Accept c1p1AccA.1 0 c1pnum (some 20)

/-- Peer 2 receives: Prepare from A, Prepare from B, Accept from B
(value 20), Decide from B.  A's Accept and Decide to peer 2 are lost. -/
def c1p2PrepA : Paxos Nat × PrepareReply Nat := Prepare (c1init 2) 0 c1pnum

def c1p2PrepB : Paxos Nat × PrepareReply Nat := Prepare c1p2PrepA.1 0 c1pnum

def c1p2AccB : Paxos Nat × String := Accept c1p2PrepB.1 0 c1pnum (some 20)

def c1peer2 : Paxos Nat := Decide c1p2AccB.1 0 (some 20) c1pnum 0 (-1)

/-- Claim C1 fails on the code: along the protocol-conformant schedule
above, agreement is violated.  Both Prepare rounds obtain OK from all
three peers with empty accepted rounds, so task A keeps candidate 10 and
task B keeps candidate 20 (the propose loop only replaces its value on a
reply whose `AcceptPnum` is larger than the empty string).  A's Accept
is OK at peers 0 and 1 and B's at peers 1 and 2 — each a majority of 3 —
so A broadcasts Decide(10) (only peer 0 gets it) and B broadcasts
Decide(20) (only peer 2 gets it).  Peers 0 and 2 then both report seq 0
as Decided with different values.  The root cause is the pair flagged in
the design notes: `generatePNum` does not guarantee uniqueness, and the
acceptor comparisons use `>=`. -/
theorem C1_agreement_violated :
    majority 3 = 2 ∧
    c1p0PrepA.2.err = OK ∧ c1p1PrepA.2.err = OK ∧ c1p2PrepA.2.err = OK ∧
    c1p0PrepB.2.err = OK ∧ c1p1PrepB.2.err = OK ∧ c1p2PrepB.2.err = OK ∧
    c1p0PrepA.2.acceptPnum = "" ∧ c1p1PrepA.2.acceptPnum = "" ∧
    c1p2PrepA.2.acceptPnum = "" ∧ c1p0PrepB.2.acceptPnum = "" ∧
    c1p1PrepB.2.acceptPnum = "" ∧ c1p2PrepB.2.acceptPnum = "" ∧
    c1p0AccA.2 = OK ∧ c1p1AccA.2 = OK ∧ c1p1AccB.2 = OK ∧ c1p2AccB.2 = OK ∧
    (Status c1peer0 0).2 = (Fate.Decided, some 10) ∧
    (Status c1peer2 0).2 = (Fate.Decided, some 20) ∧
    (10 : Nat) ≠ 20 := by decide

end PaxosImpl
